import Mathlib

/-!
Shallow embedding of the policy-bearing slice of the social-media backend
(`src/app`): the account / follow / token logic in `crud/user_crud.py`,
`services/auth_service.py`, `services/user_service.py`, `config/token.py`
and the route handlers in `routes/auth_routes.py`, `routes/user_routes.py`.

Modelling conventions:
* The relational store is a `Store`: the `users` and `follows` tables as
  lists in insertion (rowid) order; `SELECT ... .first()` without an
  `ORDER BY` is `List.find?` over that order.
* UUID values are modelled as `Nat`; the fresh-id supply `uuid4()` is the
  `nextId` counter of the store.  Python's `str(uuid)` / `UUID(s)` pair is
  modelled by a decimal printer/parser with the same contract (a bijection
  between values and their canonical text, rejecting malformed text).
* Timestamps and token expiry instants are `Nat` minutes (the token ttl is
  configured in minutes).
* The passlib `CryptContext` of `app/utils.py` is an external collaborator:
  a `Hasher` record of a one-way `hash` and a `verify` predicate.
* Python exceptions become explicit result values: raised domain exceptions
  are error constructors, an `HTTPException` is a `(status, detail)` pair,
  and an exception no handler catches — the constructor `TypeError` in
  `user_crud.create_user`, the `AttributeError` in
  `user_crud.get_user_by_login` — is an explicit crash result, which the
  server answers with a generic 500.
* `models.User` stores the hash in the `password_hash` column and has no
  `password` attribute; the service code's references to `password` on rows
  therefore do not resolve, which is where the two crashes above arise.
-/

namespace SocialMediaBackend

/-- A row of the `users` table (`app/models.py`, `class User`): the scalar
columns `id`, `username`, `email`, `password_hash`, `created_at`.  The stored
hash column is `password_hash` — the model has no `password` attribute, which
is what breaks the signup and login paths that reference one.  The claims
under study never read the posts/comments/likes side tables, so only the
scalar columns are kept. -/
structure UserRow where
  id : Nat
  username : String
  email : String
  password_hash : String
  created_at : Nat
deriving Repr, DecidableEq

/-- A row of the `follows` table (`app/models.py`, `class Follow`): a directed
edge `follower_id -> followed_id`.  The surrogate `id` and `created_at`
columns carry no policy and are not read by any operation under study. -/
structure FollowRow where
  follower_id : Nat
  followed_id : Nat
deriving Repr, DecidableEq

/-- The relational store: `users` and `follows` tables in insertion order,
plus the fresh-id supply modelling `uuid4()` generation. -/
structure Store where
  users : List UserRow
  follows : List FollowRow
  nextId : Nat
deriving Repr, DecidableEq

/-- `schemas.UserCreate`: the validated signup/login payload. -/
structure UserCreate where
  username : String
  email : String
  password : String
deriving Repr, DecidableEq

/-- `schemas.UserPrivate`: the authenticated view of an account
(username, created_at, id, email — no password hash). -/
structure UserPrivate where
  username : String
  created_at : Nat
  id : Nat
  email : String
deriving Repr, DecidableEq

/-- `UserPrivate.model_validate(user_db, strict=True)`: build the view from
the row's attributes. -/
def UserPrivate.ofRow (u : UserRow) : UserPrivate :=
  { username := u.username, created_at := u.created_at, id := u.id, email := u.email }

/-- `schemas.FollowBase`: the public view of a follow edge. -/
structure FollowBase where
  follower_id : Nat
  followed_id : Nat
deriving Repr, DecidableEq

/-- `FollowBase.model_validate(follow_db, strict=True)`. -/
def FollowBase.ofRow (f : FollowRow) : FollowBase :=
  { follower_id := f.follower_id, followed_id := f.followed_id }

/-- The domain exception classes of `app/schemas.py`. -/
inductive AppError where
  | EmailAlreadyRegistered
  | UsernameAlreadyRegistered
  | UserNotFound
  | CannotFollowSelf
  | CannotUnFollowSelf
  | AlreadyFollowing
  | NotFollowing
deriving Repr, DecidableEq

/-- The `message` each exception class sets in its constructor
(`app/schemas.py`). -/
def AppError.message : AppError → String
  | .EmailAlreadyRegistered => "Email is already registered"
  | .UsernameAlreadyRegistered => "Username is already registered"
  | .UserNotFound => "User not found"
  | .CannotFollowSelf => "User can't follow themselves"
  | .CannotUnFollowSelf => "User can't unfollow themselves"
  | .AlreadyFollowing => "You are already following this user"
  | .NotFollowing => "User can't unfollow user they dont follow"

/-- Model of the passlib `CryptContext` in `app/utils.py` (external
collaborator): `hash` is `get_hashed_password`, `verify` is
`verify_password plain hashed`. -/
structure Hasher where
  hash : String → String
  verify : String → String → Bool

/-- Result of an unguarded python expression: a value, or an uncaught
exception that aborts the request (the server answers a generic 500). -/
inductive PyResult (α : Type) where
  | ok (a : α)
  | exc
deriving Repr, DecidableEq

/-- A service call as its caller observes it: a returned value, a raised
domain exception, or an uncaught python exception. -/
inductive ServiceOutcome (α : Type) where
  | ok (a : α)
  | err (e : AppError)
  | crash
deriving Repr, DecidableEq

/-- A route handler's HTTP outcome: a response body, a raised
`HTTPException (status, detail)`, or an uncaught python exception (which the
server turns into a generic 500). -/
inductive RouteResult (α : Type) where
  | ok (a : α)
  | httpError (statusCode : Nat) (detail : String)
  | pythonError
deriving Repr, DecidableEq

/- Embedding of `app/crud/user_crud.py`. -/
namespace user_crud

/-- `get_user_by_id`: `db.query(User).filter(User.id == user_id).first()`. -/
def get_user_by_id (user_id : Nat) (db : Store) : Option UserRow :=
  db.users.find? (fun u => u.id == user_id)

/-- A SQL comparison of a column against an optional python argument:
`User.email == None` compiles to `email IS NULL`, which is false on the
NOT-NULL `email`/`username` columns, so an absent argument matches no row. -/
def colEq (arg : Option String) (col : String) : Bool :=
  match arg with
  | none => false
  | some v => v == col

/-- `get_user_by_email_or_username`:
`filter((User.email == email) | (User.username == username)).first()`. -/
def get_user_by_email_or_username (db : Store) (email : Option String)
    (username : Option String) : Option UserRow :=
  db.users.find? (fun u => colEq email u.email || colEq username u.username)

/-- `get_user_by_login`: find one row matching both `email` and `username`.
With no match, `if user and ...` short-circuits and `None` is returned.  With
a match, the source evaluates `user.password` as an argument to
`verify_password` — but the loaded `models.User` row has no `password`
attribute (the column is `password_hash`), so an `AttributeError` is raised
that nothing catches; the verifier is never reached. -/
def get_user_by_login (_H : Hasher) (login_data : UserCreate) (db : Store) :
    PyResult (Option UserRow) :=
  match db.users.find? (fun u =>
      u.email == login_data.email && u.username == login_data.username) with
  | some _user => .exc
  | none => .ok none

/-- `get_follow`: first row matching both endpoint ids. -/
def get_follow (follower_id followed_id : Nat) (db : Store) : Option FollowRow :=
  db.follows.find? (fun f =>
    f.follower_id == follower_id && f.followed_id == followed_id)

/-- The mapped attribute names of `models.User` the SQLAlchemy declarative
constructor accepts.  `password` is not among them: the hash column is
`password_hash`. -/
def user_attribute_names : List String :=
  ["id", "username", "email", "password_hash", "created_at"]

/-- The keys of `user_create.model_dump()` (`schemas.UserCreate`). -/
def model_dump_keys : List String := ["username", "email", "password"]

/-- `create_user`: `User(**user_create.model_dump())` passes the payload's
keys to the declarative constructor, which raises
`TypeError: 'password' is an invalid keyword argument` for any keyword that
is not a mapped attribute.  `model_dump` passes `password` and the model only
has `password_hash`, so the constructor always raises before the hash is
computed or anything is added to the session: nothing is ever inserted and
the NOT NULL `password_hash` column is never written.  The guard below is the
constructor's actual keyword check (it computes to false); the `then` branch
is the insert the success path would have performed. -/
def create_user (H : Hasher) (user_create : UserCreate) (db : Store) (now : Nat) :
    PyResult (UserRow × Store) :=
  if model_dump_keys.all (fun k => user_attribute_names.contains k) then
    let user_db : UserRow :=
      { id := db.nextId, username := user_create.username, email := user_create.email,
        password_hash := H.hash user_create.password, created_at := now }
    .ok (user_db, { db with users := db.users ++ [user_db], nextId := db.nextId + 1 })
  else .exc

/-- `delete_user`: `db.query(User).filter(User.id == id).delete()`.  This is a
SQLAlchemy bulk delete: it removes matching `users` rows only.  Bulk deletes
do not run the ORM-level `cascade='all, delete-orphan'` rules of the model,
the schema's foreign keys carry no `ON DELETE CASCADE`, and SQLite does not
enforce foreign keys by default, so the `follows` table is left untouched. -/
def delete_user (user_to_delete_id : Nat) (db : Store) : Store :=
  { db with users := db.users.filter (fun u => u.id != user_to_delete_id) }

/-- `follow_user`: inserts and commits a new follow edge. -/
def follow_user (current_user_id user_to_follow_id : Nat) (db : Store) :
    FollowRow × Store :=
  let follow_db : FollowRow :=
    { follower_id := current_user_id, followed_id := user_to_follow_id }
  (follow_db, { db with follows := db.follows ++ [follow_db] })

/-- `unfollow_user`: `db.delete(follow)` removes that row. -/
def unfollow_user (follow : FollowRow) (db : Store) : Store :=
  { db with follows := db.follows.erase follow }

end user_crud

/- Embedding of `app/services/user_service.py`.  Each operation returns the
service's result (`Except AppError` in place of the raised exception) paired
with the database state after the call, so the effect of every exit path is
recorded. -/
namespace user_service

/-- `user_service.get_user_by_id`: resolve an id or raise `UserNotFound`. -/
def get_user_by_id (user_id : Nat) (db : Store) : Except AppError UserPrivate :=
  match user_crud.get_user_by_id user_id db with
  | none => .error .UserNotFound
  | some user_db => .ok (UserPrivate.ofRow user_db)

/-- `user_service.create_user`: one combined lookup by email-or-username; if
a row matches, report `EmailAlreadyRegistered` when that row's email equals
the requested email, else `UsernameAlreadyRegistered`; otherwise call the
crud insert — which always raises (see `user_crud.create_user`), so the
success path never completes. -/
def create_user (H : Hasher) (user_create : UserCreate) (db : Store) (now : Nat) :
    ServiceOutcome UserPrivate × Store :=
  match user_crud.get_user_by_email_or_username db (some user_create.email)
      (some user_create.username) with
  | some existing_user =>
      if existing_user.email == user_create.email then
        (.err .EmailAlreadyRegistered, db)
      else
        (.err .UsernameAlreadyRegistered, db)
  | none =>
      match user_crud.create_user H user_create db now with
      | .ok r => (.ok (UserPrivate.ofRow r.1), r.2)
      | .exc => (.crash, db)

/-- `user_service.delete_user`: delegates to the crud bulk delete. -/
def delete_user (user_to_delete : UserPrivate) (db : Store) : Store :=
  user_crud.delete_user user_to_delete.id db

/-- `user_service.follow_user`: resolve the target by username
(`UserNotFound`), then check for an existing edge (`AlreadyFollowing`), then
check for self-follow by username equality (`CannotFollowSelf`), then insert
the edge — in exactly the order the source performs the checks. -/
def follow_user (current_user : UserPrivate) (username_to_follow : String)
    (db : Store) : Except AppError FollowBase × Store :=
  match user_crud.get_user_by_email_or_username db none (some username_to_follow) with
  | none => (.error .UserNotFound, db)
  | some user_to_follow =>
      match user_crud.get_follow current_user.id user_to_follow.id db with
      | some _ => (.error .AlreadyFollowing, db)
      | none =>
          if current_user.username == user_to_follow.username then
            (.error .CannotFollowSelf, db)
          else
            let r := user_crud.follow_user current_user.id user_to_follow.id db
            (.ok (FollowBase.ofRow r.1), r.2)

/-- `user_service.unfollow_user`: resolve the target by username
(`UserNotFound`), fetch the edge, then check self-unfollow by username
equality (`CannotUnFollowSelf`) before the missing-edge check
(`NotFollowing`), then delete the edge. -/
def unfollow_user (current_user : UserPrivate) (username_to_unfollow : String)
    (db : Store) : Except AppError Unit × Store :=
  match user_crud.get_user_by_email_or_username db none (some username_to_unfollow) with
  | none => (.error .UserNotFound, db)
  | some user_to_unfollow =>
      let existing_follow := user_crud.get_follow current_user.id user_to_unfollow.id db
      if current_user.username == user_to_unfollow.username then
        (.error .CannotUnFollowSelf, db)
      else
        match existing_follow with
        | none => (.error .NotFollowing, db)
        | some follow => (.ok (), user_crud.unfollow_user follow db)

end user_service

/- Embedding of `app/services/auth_service.py`. -/
namespace auth_service

/-- `auth_service.authenticate_user`: a failed combined lookup raises
`UserNotFound`; a successful lookup crashes inside `get_user_by_login` (the
`AttributeError` on `user.password`), which nothing here catches. -/
def authenticate_user (H : Hasher) (login_data : UserCreate) (db : Store) :
    ServiceOutcome UserPrivate :=
  match user_crud.get_user_by_login H login_data db with
  | .exc => .crash
  | .ok none => .err .UserNotFound
  | .ok (some user) => .ok (UserPrivate.ofRow user)

/-- `auth_service.create_user` is line-for-line the same function as
`user_service.create_user`. -/
def create_user (H : Hasher) (user_create : UserCreate) (db : Store) (now : Nat) :
    ServiceOutcome UserPrivate × Store :=
  user_service.create_user H user_create db now

end auth_service

/-- The success path of `create_user` as it is written to behave: guard the
combined uniqueness lookup, then hash the password into the `password_hash`
column and insert a fresh row.  In the source this path is cut short by the
constructor `TypeError` (see `user_crud.create_user`), so the program reaches
only a subset of the stores this function generates; the reachability
relation for the follow invariant is built over it, so the proved invariant
covers a superset of the program's states. -/
def create_user_intended (H : Hasher) (user_create : UserCreate) (db : Store)
    (now : Nat) : Except AppError UserPrivate × Store :=
  match user_crud.get_user_by_email_or_username db (some user_create.email)
      (some user_create.username) with
  | some existing_user =>
      if existing_user.email == user_create.email then
        (.error .EmailAlreadyRegistered, db)
      else
        (.error .UsernameAlreadyRegistered, db)
  | none =>
      let user_db : UserRow :=
        { id := db.nextId, username := user_create.username,
          email := user_create.email,
          password_hash := H.hash user_create.password, created_at := now }
      (.ok (UserPrivate.ofRow user_db),
       { db with users := db.users ++ [user_db], nextId := db.nextId + 1 })

/- Decimal numerals.  Python's `str(uuid)` / `UUID(s)` pair (used by
`create_access_token` and `get_current_user` for the subject id) is a
bijection between UUID values and their canonical text that rejects malformed
text; with UUID values modelled as `Nat` it is modelled by this decimal
printer and parser. -/

/-- The character of a decimal digit. -/
def digitChar (d : Nat) : Char := Char.ofNat (48 + d)

/-- Fuel-driven most-significant-first digit expansion. -/
def natDigitsAux : Nat → Nat → List Char → List Char
  | 0, _, acc => acc
  | fuel + 1, n, acc =>
      if n < 10 then digitChar n :: acc
      else natDigitsAux fuel (n / 10) (digitChar (n % 10) :: acc)

/-- The decimal digit string of `n` (always non-empty). -/
def natDigits (n : Nat) : List Char := natDigitsAux (n + 1) n []

/-- `str(n)` on the model of UUID values. -/
def natStr (n : Nat) : String := String.mk (natDigits n)

/-- Numeric value of a digit character. -/
def digitVal (c : Char) : Nat := c.toNat - 48

/-- Value of a most-significant-first digit string. -/
def digitsVal (l : List Char) : Nat := l.foldl (fun a c => a * 10 + digitVal c) 0

/-- `UUID(s)` on the model: parse canonical text back to the value, rejecting
anything that is not a non-empty digit string. -/
def strToNat (s : String) : Option Nat :=
  if s.toList ≠ [] ∧ s.toList.all (fun c => c.isDigit) then some (digitsVal s.toList)
  else none

/- A length-prefixed field codec: the model of the serialized wire form the
external JWT library gives to a claim set.  Any injective serialization with
a parser models the external encoding; a netstring-style one keeps the
embedding executable and invertible. -/

/-- Serialize one field: its length in decimal, a colon, then the text. -/
def encField (s : String) : List Char := natDigits s.toList.length ++ ':' :: s.toList

/-- Parse one field, returning it with the unconsumed remainder. -/
def decField (l : List Char) : Option (String × List Char) :=
  match l.takeWhile (fun c => c.isDigit), l.dropWhile (fun c => c.isDigit) with
  | [], _ => none
  | ds, ':' :: r =>
      if digitsVal ds ≤ r.length then
        some (String.mk (r.take (digitsVal ds)), r.drop (digitsVal ds))
      else none
  | _, _ => none

/-- The claim set a token of this program carries (`to_encode` in
`create_access_token`): subject id as text, username, email, expiry instant.
`jose.jwt.decode` returns these claims as a dict; tokens produced by this
program always populate all four. -/
structure Claims where
  id : String
  username : String
  email : String
  exp : Nat
deriving Repr, DecidableEq

/-- Serialized claim set. -/
def encClaims (p : Claims) : List Char :=
  encField p.id ++ encField p.username ++ encField p.email ++ encField (natStr p.exp)

/-- Parse a serialized claim set (whole input must be consumed, expiry must be
numeric). -/
def decClaims (l : List Char) : Option Claims :=
  match decField l with
  | none => none
  | some (i, r1) =>
      match decField r1 with
      | none => none
      | some (u, r2) =>
          match decField r2 with
          | none => none
          | some (e, r3) =>
              match decField r3 with
              | none => none
              | some (x, r4) =>
                  if r4 = [] then
                    match strToNat x with
                    | none => none
                    | some exp => some { id := i, username := u, email := e, exp := exp }
                  else none

/-- The exceptions `jose.jwt.decode` can raise, as caught in
`get_current_user`: `jose.exceptions.ExpiredSignatureError` for an expired
token, and every other decode failure (bad signature, corrupt payload,
unknown algorithm) as its `jose.exceptions.JWTError` superclass. -/
inductive JoseError where
  | ExpiredSignatureError
  | JWTError
deriving Repr, DecidableEq

/-- Model of the keyed signature (HMAC with the server secret) the JWT
library appends.  The program relies only on the verifier recomputing the
same tag, never on unforgeability, so any concrete keyed function models
it. -/
def macSign (secret body : String) : String := secret ++ "#" ++ body

/-- `jose.jwt.encode(to_encode, SECRET_KEY, algorithm=ALGORITHM)`: the
serialized claim set together with its tag, as one string. -/
def jwt_encode (claimsSet : Claims) (secret : String) : String :=
  let body := String.mk (encClaims claimsSet)
  String.mk (encField body ++ encField (macSign secret body))

/-- `jose.jwt.decode(token, SECRET_KEY, algorithms=[ALGORITHM])`: parse the
envelope, verify the tag (failure is a `JWTError`), then validate the `exp`
claim against the current time — python-jose raises
`ExpiredSignatureError` when `exp < now` (zero leeway). -/
def jwt_decode (token : String) (secret : String) (now : Nat) :
    Except JoseError Claims :=
  match decField token.toList with
  | none => .error .JWTError
  | some (body, r) =>
      match decField r with
      | none => .error .JWTError
      | some (sig, r2) =>
          if r2 = [] then
            if sig == macSign secret body then
              match decClaims body.toList with
              | none => .error .JWTError
              | some claimsSet =>
                  if claimsSet.exp < now then .error .ExpiredSignatureError
                  else .ok claimsSet
            else .error .JWTError
          else .error .JWTError

/-- The process configuration read in `config/config.py` (the single
configured signing algorithm is implicit: encode and decode both use it). -/
structure Config where
  SECRET_KEY : String
  ACCESS_TOKEN_EXPIRE_MINUTES : Nat
deriving Repr, DecidableEq

/-- The dict both routes pass to `create_access_token`:
`user.model_dump(exclude="created_at")` — username, id, email. -/
structure TokenData where
  username : String
  id : Nat
  email : String
deriving Repr, DecidableEq

/-- `config/token.py`, `create_access_token`: stringify the subject id,
stamp the expiry `now + expire_date` (default
`timedelta(minutes=ACCESS_TOKEN_EXPIRE_MINUTES)`), and sign. -/
def create_access_token (cfg : Config) (data : TokenData)
    (expire_date : Option Nat) (now : Nat) : String :=
  let idStr := natStr data.id
  let expire := now + expire_date.getD cfg.ACCESS_TOKEN_EXPIRE_MINUTES
  jwt_encode
    { id := idStr, username := data.username, email := data.email, exp := expire }
    cfg.SECRET_KEY

/-- Outcome of `get_current_user`: a resolved caller, a raised
`HTTPException (status, detail)`, or an exception no clause catches (the
server turns it into a generic 500). -/
inductive AuthOutcome where
  | ok (user : UserPrivate)
  | httpError (statusCode : Nat) (detail : String)
  | pythonError
deriving Repr, DecidableEq

/-- The `credentials_exception` built at the top of `get_current_user`. -/
def credentials_exception : Nat × String := (401, "Could not validate credentials")

/-- Whether the clause `except ExpiredSignatureError` in `get_current_user`
catches an exception raised by `jose.jwt.decode`.  The module decodes with
`from jose import jwt` but imports `ExpiredSignatureError` from
`jwt.exceptions` — the separate PyJWT package.  PyJWT's exception hierarchy
(rooted at `PyJWTError`) and python-jose's (rooted at `JOSEError`) are
disjoint, so no exception python-jose raises is an instance of the caught
PyJWT class: the clause catches nothing that can occur here. -/
def pyjwt_expired_catches : JoseError → Bool := fun _ => false

/-- `config/token.py`, `get_current_user`: decode the bearer token, parse the
subject id with `UUID(...)`, and resolve it against the store.  The
`email`/`id`/`username` presence checks cannot fire on decoded claims of this
model (all fields are populated); a `ValueError` from `UUID(...)` on a
non-canonical id claim is caught by neither `except` clause. -/
def get_current_user (cfg : Config) (token : String) (db : Store) (now : Nat) :
    AuthOutcome :=
  match jwt_decode token cfg.SECRET_KEY now with
  | .error e =>
      if pyjwt_expired_catches e then .httpError 401 "Token has expired"
      else .httpError credentials_exception.1 credentials_exception.2
  | .ok payload =>
      match strToNat payload.id with
      | none => .pythonError
      | some id =>
          match user_crud.get_user_by_id id db with
          | none => .httpError credentials_exception.1 credentials_exception.2
          | some user => .ok (UserPrivate.ofRow user)

/-- `schemas.Token`: the response body of both signup and login. -/
structure Token where
  access_token : String
  token_type : String
deriving Repr, DecidableEq

/- Embedding of `app/routes/auth_routes.py`.  A handler's result is the HTTP
outcome (an `HTTPException` modelled as `(status, detail)`) paired with the
database state after the request. -/
namespace auth_routes

/-- `POST /auth/signup`: call the service, catching only the two conflict
exceptions as `409` with the exception's message.  Any other escaping
exception — in particular the constructor `TypeError` on the success path —
is uncaught and becomes a generic 500.  Only on the (never completed) success
would the route issue a token for `user.model_dump(exclude="created_at")`. -/
def create_user (cfg : Config) (H : Hasher) (user_create : UserCreate)
    (db : Store) (now : Nat) : RouteResult Token × Store :=
  let r := auth_service.create_user H user_create db now
  match r.1 with
  | .err AppError.EmailAlreadyRegistered =>
      (.httpError 409 AppError.EmailAlreadyRegistered.message, r.2)
  | .err AppError.UsernameAlreadyRegistered =>
      (.httpError 409 AppError.UsernameAlreadyRegistered.message, r.2)
  | .err _ => (.pythonError, r.2)
  | .crash => (.pythonError, r.2)
  | .ok user =>
      let user_data : TokenData :=
        { username := user.username, id := user.id, email := user.email }
      let token := create_access_token cfg user_data none now
      (.ok { access_token := token, token_type := "bearer" }, r.2)

/-- `POST /auth/login`: authenticate, catching only `UserNotFound` as `404`
with its message; the `AttributeError` escaping from a matched row is
uncaught, a generic 500.  On success a token would be issued.  Authentication
never writes, so only the outcome is returned. -/
def login (cfg : Config) (H : Hasher) (login_data : UserCreate) (db : Store)
    (now : Nat) : RouteResult Token :=
  match auth_service.authenticate_user H login_data db with
  | .err AppError.UserNotFound => .httpError 404 AppError.UserNotFound.message
  | .err _ => .pythonError
  | .crash => .pythonError
  | .ok user =>
      let user_data : TokenData :=
        { username := user.username, id := user.id, email := user.email }
      .ok { access_token := create_access_token cfg user_data none now,
            token_type := "bearer" }

end auth_routes

/-- A fixed hash/verify pair used to evaluate the embedding on concrete
inputs: verification recomputes the hash and compares, the contract the
claims assume of the external passlib context. -/
def testHasher : Hasher :=
  { hash := fun p => "h|" ++ p, verify := fun p h => ("h|" ++ p) == h }

/-- A fixed configuration for concrete evaluations. -/
def testCfg : Config := { SECRET_KEY := "secret", ACCESS_TOKEN_EXPIRE_MINUTES := 30 }

/-- A concrete account row for evaluations (its `password_hash` is what
`testHasher` produces for `"password123"`). -/
def aliceRow : UserRow :=
  { id := 0, username := "alice", email := "a@x.com",
    password_hash := "h|password123", created_at := 0 }

/-- A second concrete account row. -/
def bobRow : UserRow :=
  { id := 1, username := "bob", email := "b@x.com",
    password_hash := "h|password123", created_at := 0 }

/-- A store holding only `alice`. -/
def dbAlice : Store := { users := [aliceRow], follows := [], nextId := 1 }

/-- A store holding `alice` and `bob`, no follow edges. -/
def dbAliceBob : Store := { users := [aliceRow, bobRow], follows := [], nextId := 2 }

/-- A store where `alice` follows `bob`. -/
def dbFollow : Store :=
  { users := [aliceRow, bobRow], follows := [⟨0, 1⟩], nextId := 2 }

/-- The `ck_follows_no_self_follow` CHECK constraint on the `follows` table
(`app/models.py`).  SQLite enforces CHECK constraints on every write — the
model tests expect `IntegrityError` on inserting a self-edge — so every store
state the database can hold satisfies this predicate. -/
def follows_check_constraint (db : Store) : Prop :=
  ∀ f ∈ db.follows, f.follower_id ≠ f.followed_id

/-- The empty store. -/
def dbEmpty : Store := { users := [], follows := [], nextId := 0 }

/-- The follow-relation invariant: no self-edges, and at most one edge per
ordered (follower, followed) pair. -/
def FollowInv (db : Store) : Prop :=
  (∀ f ∈ db.follows, f.follower_id ≠ f.followed_id) ∧
  db.follows.Pairwise
    (fun f g => f.follower_id ≠ g.follower_id ∨ f.followed_id ≠ g.followed_id)

/-- The strengthened invariant the operations maintain: every stored id is
below the fresh-id supply, account ids are pairwise distinct, and the follow
invariant holds. -/
def StoreInv (db : Store) : Prop :=
  (∀ u ∈ db.users, u.id < db.nextId) ∧
  (db.users.map (fun u => u.id)).Nodup ∧ FollowInv db

/-- The store states reachable through the service operations from the empty
store.  The authenticated caller of follow/unfollow/delete is an account row
resolved from the store by id — exactly what `get_current_user` supplies to
the route handlers. -/
inductive Reachable (H : Hasher) : Store → Prop where
  | empty : Reachable H dbEmpty
  | signup (db : Store) (uc : UserCreate) (now : Nat) :
      Reachable H db →
      Reachable H (create_user_intended H uc db now).2
  | follow (db : Store) (cu : UserRow) (un : String) :
      Reachable H db → user_crud.get_user_by_id cu.id db = some cu →
      Reachable H (user_service.follow_user (UserPrivate.ofRow cu) un db).2
  | unfollow (db : Store) (cu : UserRow) (un : String) :
      Reachable H db → user_crud.get_user_by_id cu.id db = some cu →
      Reachable H (user_service.unfollow_user (UserPrivate.ofRow cu) un db).2
  | deleteAccount (db : Store) (cu : UserRow) :
      Reachable H db → user_crud.get_user_by_id cu.id db = some cu →
      Reachable H (user_service.delete_user (UserPrivate.ofRow cu) db)

/- ---------------------------------------------------------------------- -/
/- Theorems.                                                              -/
/- ---------------------------------------------------------------------- -/

theorem natDigitsAux_spec :
    ∀ fuel n acc, n < fuel → natDigitsAux fuel n acc = natDigits n ++ acc := by
  intro fuel
  induction fuel using Nat.strong_induction_on
  rename_i fuel ih
  cases fuel with
  | zero => intro n acc h; omega
  | succ f =>
    intro n acc h
    by_cases h10 : n < 10
    · simp [natDigitsAux, natDigits, h10]
    · have hd : n / 10 < n := Nat.div_lt_self (by omega) (by omega)
      have hstep : ∀ m acc2, natDigitsAux (m + 1) n acc2
          = natDigitsAux m (n / 10) (digitChar (n % 10) :: acc2) := by
        intro m acc2
        simp [natDigitsAux, h10]
      have hrhs : natDigits n = natDigits (n / 10) ++ [digitChar (n % 10)] := by
        unfold natDigits
        rw [hstep n []]
        exact ih n h (n / 10) _ hd
      rw [hstep f acc, ih f (by omega) (n / 10) _ (by omega), hrhs]
      simp

theorem natDigits_lt10 {n : Nat} (h : n < 10) : natDigits n = [digitChar n] := by
  simp [natDigits, natDigitsAux, h]

theorem natDigits_ge10 {n : Nat} (h : ¬ n < 10) :
    natDigits n = natDigits (n / 10) ++ [digitChar (n % 10)] := by
  conv_lhs => unfold natDigits natDigitsAux
  simp only [if_neg h]
  exact natDigitsAux_spec n (n / 10) _ (Nat.div_lt_self (by omega) (by omega))

theorem digitVal_digitChar {d : Nat} (h : d < 10) : digitVal (digitChar d) = d := by
  interval_cases d <;> decide

theorem isDigit_digitChar {d : Nat} (h : d < 10) : (digitChar d).isDigit = true := by
  interval_cases d <;> decide

theorem isDigit_of_mem_natDigits :
    ∀ n c, c ∈ natDigits n → c.isDigit = true := by
  intro n
  induction n using Nat.strong_induction_on
  rename_i n ih
  intro c hc
  by_cases h10 : n < 10
  · rw [natDigits_lt10 h10] at hc
    simp at hc
    subst hc
    exact isDigit_digitChar h10
  · rw [natDigits_ge10 h10] at hc
    rcases List.mem_append.mp hc with h | h
    · exact ih (n / 10) (Nat.div_lt_self (by omega) (by omega)) c h
    · simp at h
      subst h
      exact isDigit_digitChar (Nat.mod_lt _ (by omega))

theorem digitsVal_append_singleton (l : List Char) (c : Char) :
    digitsVal (l ++ [c]) = digitsVal l * 10 + digitVal c := by
  simp [digitsVal, List.foldl_append, Nat.mul_comm]

theorem digitsVal_natDigits : ∀ n, digitsVal (natDigits n) = n := by
  intro n
  induction n using Nat.strong_induction_on
  rename_i n ih
  by_cases h10 : n < 10
  · rw [natDigits_lt10 h10]
    simp [digitsVal, digitVal_digitChar h10]
  · rw [natDigits_ge10 h10, digitsVal_append_singleton,
        ih (n / 10) (Nat.div_lt_self (by omega) (by omega)),
        digitVal_digitChar (Nat.mod_lt _ (by omega))]
    omega

theorem natDigits_ne_nil (n : Nat) : natDigits n ≠ [] := by
  by_cases h10 : n < 10
  · rw [natDigits_lt10 h10]; simp
  · rw [natDigits_ge10 h10]; simp

theorem toList_mk (l : List Char) : (String.mk l).toList = l := rfl

theorem mk_toList (s : String) : String.mk s.toList = s := rfl

theorem strToNat_natStr (n : Nat) : strToNat (natStr n) = some n := by
  unfold strToNat natStr
  rw [toList_mk]
  rw [if_pos ⟨natDigits_ne_nil n, List.all_eq_true.mpr
    (fun c hc => isDigit_of_mem_natDigits n c hc)⟩]
  rw [digitsVal_natDigits]

theorem takeWhile_dropWhile_append (p : Char → Bool) :
    ∀ (l : List Char) (y : Char) (t : List Char),
      (∀ c ∈ l, p c = true) → p y = false →
      (l ++ y :: t).takeWhile p = l ∧ (l ++ y :: t).dropWhile p = y :: t := by
  intro l
  induction l with
  | nil =>
      intro y t _ hy
      constructor <;> simp [List.takeWhile, List.dropWhile, hy]
  | cons a l ih =>
      intro y t hl hy
      have ha : p a = true := hl a (by simp)
      have h := ih y t (fun c hc => hl c (by simp [hc])) hy
      constructor <;>
        simp [List.takeWhile_cons, List.dropWhile_cons, ha, h.1, h.2]

theorem decField_eq (l ds r2 : List Char) (hne : ds ≠ [])
    (ht : l.takeWhile (fun c => c.isDigit) = ds)
    (hd : l.dropWhile (fun c => c.isDigit) = ':' :: r2) :
    decField l =
      if digitsVal ds ≤ r2.length then
        some (String.mk (r2.take (digitsVal ds)), r2.drop (digitsVal ds))
      else none := by
  obtain ⟨d, t, rfl⟩ := List.exists_cons_of_ne_nil hne
  unfold decField
  rw [ht, hd]
  rfl

theorem decField_encField (s : String) (rest : List Char) :
    decField (encField s ++ rest) = some (s, rest) := by
  have hdig : ∀ c ∈ natDigits s.toList.length, (fun c : Char => c.isDigit) c = true :=
    fun c hc => isDigit_of_mem_natDigits _ c hc
  have h := takeWhile_dropWhile_append (fun c => c.isDigit)
    (natDigits s.toList.length) ':' (s.toList ++ rest) hdig (by decide)
  have hl : encField s ++ rest
      = natDigits s.toList.length ++ ':' :: (s.toList ++ rest) := by
    simp [encField]
  rw [hl, decField_eq _ _ _ (natDigits_ne_nil _) h.1 h.2, digitsVal_natDigits,
    if_pos (by simp : s.toList.length ≤ (s.toList ++ rest).length),
    List.take_left, List.drop_left, mk_toList]

theorem decField_encField_nil (s : String) : decField (encField s) = some (s, []) := by
  have h := decField_encField s []
  simpa using h

theorem decClaims_encClaims (p : Claims) : decClaims (encClaims p) = some p := by
  unfold decClaims encClaims
  simp only [List.append_assoc, decField_encField, decField_encField_nil,
    strToNat_natStr]
  rfl

theorem jwt_decode_encode (claimsSet : Claims) (secret : String) (now : Nat) :
    jwt_decode (jwt_encode claimsSet secret) secret now =
      if claimsSet.exp < now then .error .ExpiredSignatureError
      else .ok claimsSet := by
  unfold jwt_encode jwt_decode
  simp only [toList_mk, decField_encField, decField_encField_nil,
    decClaims_encClaims, beq_self_eq_true, if_true]

theorem find?_append_of_eq_none {α : Type} (p : α → Bool) {l₁ : List α}
    (l₂ : List α) (h : l₁.find? p = none) :
    (l₁ ++ l₂).find? p = l₂.find? p := by
  induction l₁ with
  | nil => simp
  | cons a l ih =>
      by_cases hpa : p a
      · simp [List.find?_cons_of_pos _ hpa] at h
      · simp only [List.cons_append, List.find?_cons_of_neg _ hpa] at h ⊢
        exact ih h

/-- C1 (divergence).  In a store holding `alice`, login with her username and
email but a wrong password crashes: `get_user_by_login` evaluates
`user.password` on a row that only has `password_hash`, an uncaught
`AttributeError` the server answers as a 500.  Login with a wholly unknown
username returns `404 "User not found"`.  The two runs are distinguishable,
contrary to the claim and to `test_login_wrong_password`. -/
theorem C1_login_wrong_password_crashes :
    auth_routes.login testCfg testHasher ⟨"alice", "a@x.com", "wrongpass"⟩ dbAlice 0
      = .pythonError ∧
    auth_routes.login testCfg testHasher ⟨"nobody", "a@x.com", "password123"⟩ dbAlice 0
      = .httpError 404 "User not found" ∧
    (RouteResult.pythonError : RouteResult Token)
      ≠ .httpError 404 "User not found" :=
  ⟨rfl, rfl, by decide⟩

/-- C10 (divergence).  The signup-then-login round trip is unreachable: a
valid signup against the empty store crashes in the declarative constructor
(`TypeError`: no `password` attribute; no row, no view), and even against a
store already holding the matching account, authentication with the correct
credentials crashes reading the nonexistent `password` attribute instead of
returning the account view. -/
theorem C10_signup_then_login_unreachable :
    auth_service.create_user testHasher ⟨"bob", "b@x.com", "password123"⟩ dbEmpty 0
      = (.crash, dbEmpty) ∧
    auth_service.authenticate_user testHasher
        ⟨"alice", "a@x.com", "password123"⟩ dbAlice = .crash :=
  ⟨rfl, rfl⟩

/-- C9.  Every domain-error exit of account creation, follow, and unfollow
leaves the store exactly as it was: all guard checks run before any write. -/
theorem C9_error_paths_preserve_store :
    (∀ (H : Hasher) (uc : UserCreate) (db : Store) (now : Nat) (e : AppError),
      (auth_service.create_user H uc db now).1 = .err e →
      (auth_service.create_user H uc db now).2 = db) ∧
    (∀ (cu : UserPrivate) (un : String) (db : Store) (e : AppError),
      (user_service.follow_user cu un db).1 = .error e →
      (user_service.follow_user cu un db).2 = db) ∧
    (∀ (cu : UserPrivate) (un : String) (db : Store) (e : AppError),
      (user_service.unfollow_user cu un db).1 = .error e →
      (user_service.unfollow_user cu un db).2 = db) := by
  refine ⟨?_, ?_, ?_⟩
  · intro H uc db now e h
    unfold auth_service.create_user user_service.create_user at h ⊢
    cases hx : user_crud.get_user_by_email_or_username db (some uc.email)
        (some uc.username) with
    | none => rfl
    | some ex =>
        dsimp only
        split <;> rfl
  · intro cu un db e h
    unfold user_service.follow_user at h ⊢
    cases h1 : user_crud.get_user_by_email_or_username db none (some un) with
    | none => rfl
    | some t =>
        rw [h1] at h
        dsimp only at h ⊢
        cases h2 : user_crud.get_follow cu.id t.id db with
        | some f => rfl
        | none =>
            rw [h2] at h
            dsimp only at h ⊢
            by_cases h3 : cu.username == t.username
            · rw [if_pos h3]
            · rw [if_neg h3] at h
              simp [user_crud.follow_user] at h
  · intro cu un db e h
    unfold user_service.unfollow_user at h ⊢
    cases h1 : user_crud.get_user_by_email_or_username db none (some un) with
    | none => rfl
    | some t =>
        rw [h1] at h
        dsimp only at h ⊢
        by_cases h2 : cu.username == t.username
        · rw [if_pos h2]
        · rw [if_neg h2] at h ⊢
          cases h3 : user_crud.get_follow cu.id t.id db with
          | none => rfl
          | some f =>
              rw [h3] at h
              dsimp only at h
              simp at h

/-- Witness for C9: a duplicate signup, a self-follow, and an unfollow with
no edge, each against concrete stores, all leave the store unchanged. -/
theorem C9_witness :
    (auth_service.create_user testHasher ⟨"alice", "a@x.com", "password456"⟩ dbAlice 0).2
      = dbAlice ∧
    (user_service.follow_user (UserPrivate.ofRow aliceRow) "alice" dbAliceBob).2
      = dbAliceBob ∧
    (user_service.unfollow_user (UserPrivate.ofRow aliceRow) "bob" dbAliceBob).2
      = dbAliceBob :=
  ⟨C9_error_paths_preserve_store.1 testHasher ⟨"alice", "a@x.com", "password456"⟩
      dbAlice 0 .EmailAlreadyRegistered rfl,
   C9_error_paths_preserve_store.2.1 (UserPrivate.ofRow aliceRow) "alice" dbAliceBob
      .CannotFollowSelf rfl,
   C9_error_paths_preserve_store.2.2 (UserPrivate.ofRow aliceRow) "bob" dbAliceBob
      .NotFollowing rfl⟩

/-- Counterexample for C4: in a store where `alice`/`a@x.com` is registered,
signing up with that same username AND email reports the email conflict, not
the username conflict the claim requires. -/
theorem C4_counterexample :
    (auth_service.create_user testHasher ⟨"alice", "a@x.com", "password456"⟩ dbAlice 0).1
      = .err .EmailAlreadyRegistered ∧
    AppError.EmailAlreadyRegistered ≠ AppError.UsernameAlreadyRegistered :=
  ⟨rfl, by decide⟩

/-- C4 (amended).  Signup against a store already holding the username or the
email always fails with a conflict error and leaves the store unchanged; the
field named is decided by the earliest-inserted row matching either column:
email when that row's email equals the requested email, otherwise username.
In particular a row colliding on both is reported as email-taken. -/
theorem C4_amended_conflict_field (H : Hasher) (uc : UserCreate) (db : Store)
    (now : Nat)
    (hcol : ∃ u ∈ db.users, u.username = uc.username ∨ u.email = uc.email) :
    ∃ ex, user_crud.get_user_by_email_or_username db (some uc.email)
        (some uc.username) = some ex ∧
      (auth_service.create_user H uc db now).1 =
        .err (if ex.email = uc.email then AppError.EmailAlreadyRegistered
              else AppError.UsernameAlreadyRegistered) ∧
      (auth_service.create_user H uc db now).2 = db := by
  obtain ⟨u, hu, hcase⟩ := hcol
  have hsome : (user_crud.get_user_by_email_or_username db (some uc.email)
      (some uc.username)).isSome := by
    unfold user_crud.get_user_by_email_or_username
    rw [List.find?_isSome]
    refine ⟨u, hu, ?_⟩
    simp only [user_crud.colEq, Bool.or_eq_true, beq_iff_eq]
    rcases hcase with h | h
    · exact Or.inr h.symm
    · exact Or.inl h.symm
  obtain ⟨ex, hex⟩ := Option.isSome_iff_exists.mp hsome
  refine ⟨ex, hex, ?_, ?_⟩
  · unfold auth_service.create_user user_service.create_user
    rw [hex]
    dsimp only
    by_cases he : ex.email = uc.email
    · rw [if_pos (by simp [he]), if_pos he]
    · rw [if_neg (by simp [he]), if_neg he]
  · unfold auth_service.create_user user_service.create_user
    rw [hex]
    dsimp only
    split <;> rfl

/-- Witness for C4 (amended), at the both-collide store: the reported field
is email. -/
theorem C4_witness :
    ∃ ex, user_crud.get_user_by_email_or_username dbAlice (some "a@x.com")
        (some "alice") = some ex ∧
      (auth_service.create_user testHasher ⟨"alice", "a@x.com", "password456"⟩ dbAlice 0).1 =
        .err (if ex.email = "a@x.com" then AppError.EmailAlreadyRegistered
              else AppError.UsernameAlreadyRegistered) ∧
      (auth_service.create_user testHasher ⟨"alice", "a@x.com", "password456"⟩ dbAlice 0).2
        = dbAlice :=
  C4_amended_conflict_field testHasher ⟨"alice", "a@x.com", "password456"⟩ dbAlice 0
    ⟨aliceRow, by simp [dbAlice], Or.inl rfl⟩

/-- C5.  Over every store the database can hold (the `follows` CHECK
constraint bars self-edges): (a) a second follow of the same existing target
by the same follower yields `AlreadyFollowing`; (b) a follow whose resolved
target equals the current user yields `CannotFollowSelf` regardless of prior
state — the duplicate-edge check runs first, but the constraint leaves it
nothing to find; (c) an unfollow of an existing target with no edge yields
`NotFollowing`; (d) a self-unfollow yields `CannotUnFollowSelf` regardless of
edge state, taking precedence over the missing-edge check. -/
theorem C5_follow_unfollow_error_precedence :
    (∀ (cu : UserPrivate) (un : String) (db : Store) (fb : FollowBase),
      (user_service.follow_user cu un db).1 = .ok fb →
      (user_service.follow_user cu un (user_service.follow_user cu un db).2).1
        = .error .AlreadyFollowing) ∧
    (∀ (cu : UserPrivate) (un : String) (db : Store) (t : UserRow),
      follows_check_constraint db →
      user_crud.get_user_by_email_or_username db none (some un) = some t →
      UserPrivate.ofRow t = cu →
      (user_service.follow_user cu un db).1 = .error .CannotFollowSelf) ∧
    (∀ (cu : UserPrivate) (un : String) (db : Store) (t : UserRow),
      user_crud.get_user_by_email_or_username db none (some un) = some t →
      cu.username ≠ t.username →
      user_crud.get_follow cu.id t.id db = none →
      (user_service.unfollow_user cu un db).1 = .error .NotFollowing) ∧
    (∀ (cu : UserPrivate) (un : String) (db : Store) (t : UserRow),
      user_crud.get_user_by_email_or_username db none (some un) = some t →
      UserPrivate.ofRow t = cu →
      (user_service.unfollow_user cu un db).1 = .error .CannotUnFollowSelf) := by
  refine ⟨?_, ?_, ?_, ?_⟩
  · intro cu un db fb h
    unfold user_service.follow_user at h
    cases h1 : user_crud.get_user_by_email_or_username db none (some un) with
    | none => rw [h1] at h; simp at h
    | some t =>
        rw [h1] at h
        dsimp only at h
        cases h2 : user_crud.get_follow cu.id t.id db with
        | some f => rw [h2] at h; simp at h
        | none =>
            rw [h2] at h
            dsimp only at h
            by_cases h3 : cu.username == t.username
            · rw [if_pos h3] at h; simp at h
            · have hsucc : user_service.follow_user cu un db
                  = (.ok (FollowBase.ofRow ⟨cu.id, t.id⟩),
                     { db with follows := db.follows ++ [⟨cu.id, t.id⟩] }) := by
                unfold user_service.follow_user user_crud.follow_user
                rw [h1]
                dsimp only
                rw [h2]
                dsimp only
                rw [if_neg h3]
              rw [hsucc]
              have h1b : user_crud.get_user_by_email_or_username
                  { db with follows := db.follows ++ [⟨cu.id, t.id⟩] } none
                  (some un) = some t := h1
              have h2b : user_crud.get_follow cu.id t.id
                  { db with follows := db.follows ++ [⟨cu.id, t.id⟩] }
                  = some ⟨cu.id, t.id⟩ := by
                unfold user_crud.get_follow at h2 ⊢
                dsimp only
                rw [find?_append_of_eq_none _ _ h2,
                  List.find?_cons_of_pos _ (by simp)]
              unfold user_service.follow_user
              rw [h1b]
              dsimp only
              rw [h2b]
  · intro cu un db t hck h1 h2
    subst h2
    have h3 : user_crud.get_follow (UserPrivate.ofRow t).id t.id db = none := by
      unfold user_crud.get_follow
      rw [List.find?_eq_none]
      intro f hf
      simp only [UserPrivate.ofRow, Bool.and_eq_true, beq_iff_eq, not_and]
      intro hfol hfed
      exact absurd (by rw [hfol, hfed]) (hck f hf)
    unfold user_service.follow_user
    rw [h1]
    dsimp only
    rw [h3]
    dsimp only
    rw [if_pos (by simp [UserPrivate.ofRow])]
  · intro cu un db t h1 h2 h3
    unfold user_service.unfollow_user
    rw [h1]
    dsimp only
    rw [if_neg (by simpa using h2), h3]
  · intro cu un db t h1 h2
    unfold user_service.unfollow_user
    rw [h1]
    dsimp only
    rw [if_pos (by rw [← h2]; simp [UserPrivate.ofRow])]

/-- Witness for C5: second follow, self-follow against a constraint-abiding
store, unfollow without an edge, and self-unfollow, each at concrete
stores. -/
theorem C5_witness :
    (user_service.follow_user (UserPrivate.ofRow aliceRow) "bob"
        (user_service.follow_user (UserPrivate.ofRow aliceRow) "bob" dbAliceBob).2).1
      = .error .AlreadyFollowing ∧
    (user_service.follow_user (UserPrivate.ofRow aliceRow) "alice" dbAliceBob).1
      = .error .CannotFollowSelf ∧
    (user_service.unfollow_user (UserPrivate.ofRow aliceRow) "bob" dbAliceBob).1
      = .error .NotFollowing ∧
    (user_service.unfollow_user (UserPrivate.ofRow aliceRow) "alice" dbFollow).1
      = .error .CannotUnFollowSelf :=
  ⟨C5_follow_unfollow_error_precedence.1 (UserPrivate.ofRow aliceRow) "bob" dbAliceBob
      ⟨0, 1⟩ rfl,
   C5_follow_unfollow_error_precedence.2.1 (UserPrivate.ofRow aliceRow) "alice"
      dbAliceBob aliceRow (by intro f hf; simp [dbAliceBob] at hf) rfl rfl,
   C5_follow_unfollow_error_precedence.2.2.1 (UserPrivate.ofRow aliceRow) "bob"
      dbAliceBob bobRow rfl (by decide) rfl,
   C5_follow_unfollow_error_precedence.2.2.2 (UserPrivate.ofRow aliceRow) "alice"
      dbFollow aliceRow rfl rfl⟩

/-- C7.  A token issued for a subject id, carried unmodified (so its tag is
valid) and checked while unexpired, is rejected with the invalid-credentials
error whenever the subject id no longer resolves in the store: deletion
invalidates outstanding tokens at the subject-resolution step. -/
theorem C7_deleted_subject_token_rejected
    (cfg : Config) (data : TokenData) (db : Store) (T now2 : Nat)
    (hexp : now2 ≤ T + cfg.ACCESS_TOKEN_EXPIRE_MINUTES)
    (hgone : user_crud.get_user_by_id data.id db = none) :
    get_current_user cfg (create_access_token cfg data none T) db now2 =
      .httpError 401 "Could not validate credentials" := by
  unfold get_current_user create_access_token
  rw [jwt_decode_encode]
  rw [if_neg (by dsimp only [Option.getD]; omega)]
  dsimp only
  rw [strToNat_natStr]
  dsimp only
  rw [hgone]
  rfl

/-- Witness for C7: a token for an id absent from the store, checked before
its expiry. -/
theorem C7_witness :
    get_current_user testCfg
        (create_access_token testCfg ⟨"ghost", 5, "g@x.com"⟩ none 0) dbEmpty 10 =
      .httpError 401 "Could not validate credentials" :=
  C7_deleted_subject_token_rejected testCfg ⟨"ghost", 5, "g@x.com"⟩ dbEmpty 0 10
    (by decide) (by decide)

/-- C2 (divergence).  A token issued at `T = 100` with the default 30-minute
ttl verifies at `T+M-1 = 129` but at `T+M+1 = 131` is answered with the
generic `"Could not validate credentials"` — not the distinct
`"Token has expired"` the claim (and `test_me_expired_token`) requires:
`token.py` catches PyJWT's `ExpiredSignatureError` while `jose.jwt.decode`
raises python-jose's, so the expiry handler is unreachable. -/
theorem C2_expiry_reported_as_generic_error :
    get_current_user testCfg
        (create_access_token testCfg ⟨"alice", 0, "a@x.com"⟩ none 100) dbAlice 129 =
      .ok (UserPrivate.ofRow aliceRow) ∧
    get_current_user testCfg
        (create_access_token testCfg ⟨"alice", 0, "a@x.com"⟩ none 100) dbAlice 131 =
      .httpError 401 "Could not validate credentials" ∧
    "Could not validate credentials" ≠ "Token has expired" :=
  ⟨by decide, by decide, by decide⟩

/-- C3 (divergence).  Deleting `alice` from the store where `alice` follows
`bob` removes the account row but leaves the follow edge whose follower
endpoint is the deleted account: the bulk delete in `user_crud.delete_user`
does not cascade. -/
theorem C3_delete_leaves_orphan_follow_edges :
    (user_service.delete_user (UserPrivate.ofRow aliceRow) dbFollow).users = [bobRow] ∧
    (user_service.delete_user (UserPrivate.ofRow aliceRow) dbFollow).follows
      = [⟨0, 1⟩] ∧
    (⟨0, 1⟩ : FollowRow).follower_id = aliceRow.id :=
  ⟨by decide, by decide, by decide⟩

theorem storeInv_create (H : Hasher) (uc : UserCreate) (db : Store) (now : Nat)
    (h : StoreInv db) : StoreInv (create_user_intended H uc db now).2 := by
  unfold create_user_intended
  cases hx : user_crud.get_user_by_email_or_username db (some uc.email)
      (some uc.username) with
  | some ex =>
      dsimp only
      split <;> exact h
  | none =>
      dsimp only
      obtain ⟨hbound, hnodup, hf⟩ := h
      refine ⟨?_, ?_, ?_⟩
      · intro u hu
        rcases List.mem_append.mp hu with hm | hm
        · exact Nat.lt_succ_of_lt (hbound u hm)
        · simp at hm
          subst hm
          exact Nat.lt_succ_self _
      · rw [List.map_append, List.nodup_append]
        refine ⟨hnodup, by simp, ?_⟩
        intro x hx1 hx2
        simp at hx1 hx2
        obtain ⟨u, hu, hux⟩ := hx1
        have := hbound u hu
        omega
      · exact hf

theorem storeInv_follow (db : Store) (cu : UserRow) (un : String)
    (h : StoreInv db) (hcu : user_crud.get_user_by_id cu.id db = some cu) :
    StoreInv (user_service.follow_user (UserPrivate.ofRow cu) un db).2 := by
  unfold user_service.follow_user
  dsimp only [UserPrivate.ofRow]
  cases h1 : user_crud.get_user_by_email_or_username db none (some un) with
  | none => exact h
  | some t =>
      dsimp only
      cases h2 : user_crud.get_follow cu.id t.id db with
      | some f => exact h
      | none =>
          dsimp only
          by_cases h3 : cu.username == t.username
          · rw [if_pos h3]
            exact h
          · rw [if_neg h3]
            unfold user_crud.follow_user
            dsimp only
            obtain ⟨hbound, hnodup, hirr, hpair⟩ := h
            unfold user_crud.get_follow at h2
            refine ⟨hbound, hnodup, ?_, ?_⟩
            · intro f hf2
              rcases List.mem_append.mp hf2 with hm | hm
              · exact hirr f hm
              · simp at hm
                subst hm
                intro hid
                have hcu_mem : cu ∈ db.users := List.mem_of_find?_eq_some hcu
                have ht_mem : t ∈ db.users := List.mem_of_find?_eq_some h1
                have heq : cu = t :=
                  List.inj_on_of_nodup_map hnodup hcu_mem ht_mem hid
                subst heq
                simp at h3
            · rw [List.pairwise_append]
              refine ⟨hpair, List.pairwise_singleton _ _, ?_⟩
              intro f hf2 g hg
              simp only [List.mem_singleton] at hg
              subst hg
              have hnomatch := List.find?_eq_none.mp h2 f hf2
              simp only [Bool.and_eq_true, beq_iff_eq, not_and] at hnomatch
              by_cases hfol : f.follower_id = cu.id
              · exact Or.inr (hnomatch hfol)
              · exact Or.inl hfol

theorem storeInv_unfollow (db : Store) (cu : UserRow) (un : String)
    (h : StoreInv db) :
    StoreInv (user_service.unfollow_user (UserPrivate.ofRow cu) un db).2 := by
  unfold user_service.unfollow_user
  dsimp only [UserPrivate.ofRow]
  cases h1 : user_crud.get_user_by_email_or_username db none (some un) with
  | none => exact h
  | some t =>
      dsimp only
      by_cases h2 : cu.username == t.username
      · rw [if_pos h2]
        exact h
      · rw [if_neg h2]
        cases h3 : user_crud.get_follow cu.id t.id db with
        | none => exact h
        | some f =>
            unfold user_crud.unfollow_user
            dsimp only
            obtain ⟨hbound, hnodup, hirr, hpair⟩ := h
            have hsub : (db.follows.erase f).Sublist db.follows :=
              List.erase_sublist f db.follows
            exact ⟨hbound, hnodup,
              fun g hg => hirr g (hsub.subset hg), hpair.sublist hsub⟩

theorem storeInv_delete (db : Store) (cu : UserRow) (h : StoreInv db) :
    StoreInv (user_service.delete_user (UserPrivate.ofRow cu) db) := by
  unfold user_service.delete_user user_crud.delete_user
  dsimp only [UserPrivate.ofRow]
  obtain ⟨hbound, hnodup, hf⟩ := h
  refine ⟨?_, ?_, hf⟩
  · intro u hu
    exact hbound u (List.mem_of_mem_filter hu)
  · exact hnodup.sublist ((List.filter_sublist _).map _)

theorem reachable_storeInv (H : Hasher) (db : Store) (h : Reachable H db) :
    StoreInv db := by
  induction h with
  | empty =>
      refine ⟨?_, ?_, ?_, ?_⟩ <;> simp [dbEmpty]
  | signup db uc now _ ih => exact storeInv_create H uc db now ih
  | follow db cu un _ hcu ih => exact storeInv_follow db cu un ih hcu
  | unfollow db cu un _ _ ih => exact storeInv_unfollow db cu un ih
  | deleteAccount db cu _ _ ih => exact storeInv_delete db cu ih

/-- C6.  In every store state reachable through the service operations
(account creation, follow, unfollow, account deletion, with the caller
resolved from the store), the follow relation is irreflexive and holds at
most one edge per ordered (follower, followed) pair. -/
theorem C6_reachable_follow_invariant (H : Hasher) (db : Store)
    (h : Reachable H db) : FollowInv db :=
  (reachable_storeInv H db h).2.2

/-- Witness for C6: the two-account store with one follow edge, built by
signup, signup, follow from the empty store. -/
theorem C6_witness : FollowInv dbFollow :=
  C6_reachable_follow_invariant testHasher dbFollow
    (Reachable.follow _ aliceRow "bob"
      (Reachable.signup _ ⟨"bob", "b@x.com", "password123"⟩ 0
        (Reachable.signup dbEmpty ⟨"alice", "a@x.com", "password123"⟩ 0
          Reachable.empty))
      rfl)

/-- C8 (divergence).  Signup can never answer with a token: on its success
path `User(**user_create.model_dump())` raises `TypeError` (there is no
`password` attribute; the NOT NULL `password_hash` column is never written),
which the route does not catch.  A valid, collision-free payload is answered
with a generic 500 and the store is unchanged; in general every signup is
answered with a 500 or an `HTTPException`, never a token. -/
theorem C8_signup_never_issues_token :
    auth_routes.create_user testCfg testHasher ⟨"alice", "a@x.com", "password123"⟩
        dbEmpty 0 = (.pythonError, dbEmpty) ∧
    ∀ (cfg : Config) (H : Hasher) (uc : UserCreate) (db : Store) (now : Nat),
      (auth_routes.create_user cfg H uc db now).1 = .pythonError ∨
      ∃ s d, (auth_routes.create_user cfg H uc db now).1 = .httpError s d := by
  constructor
  · rfl
  · intro cfg H uc db now
    unfold auth_routes.create_user auth_service.create_user user_service.create_user
    cases hx : user_crud.get_user_by_email_or_username db (some uc.email)
        (some uc.username) with
    | some ex =>
        dsimp only
        by_cases he : (ex.email == uc.email) = true
        · rw [if_pos he]
          exact Or.inr ⟨409, AppError.EmailAlreadyRegistered.message, rfl⟩
        · rw [if_neg he]
          exact Or.inr ⟨409, AppError.UsernameAlreadyRegistered.message, rfl⟩
    | none =>
        dsimp only
        left
        rfl

end SocialMediaBackend
